import Mathlib

/-!
# A verified model of `daemon/daemon.py`

Shallow embedding of the `Daemon` class from `src/daemon/daemon.py`.
The filesystem is an association list from paths to file contents
(lists of characters); every OS decision the code observes (fork
results, success of `open`, the current pid, the external removal of
the pid file while `stop` polls) is an explicit environment value.
Each operation returns an `Outcome` (normal return, `SystemExit`,
`RuntimeError`, unhandled `OSError`, `ValueError`, or nontermination
of the poll loop), the trace of externally visible events it
performed, in order, and the resulting filesystem.
-/

namespace DaemonModel

abbrev Path := String
abbrev FileContent := List Char
abbrev Fs := List (Path × FileContent)

/-- Content stored at `p`, or `none` when no file exists there
(`os.path.exists` / `open` for reading). -/
def Fs.lookup (fs : Fs) (p : Path) : Option FileContent :=
  List.lookup p fs

/-- `os.path.exists(p)`. -/
def Fs.hasFile (fs : Fs) (p : Path) : Bool :=
  (Fs.lookup fs p).isSome

/-- `open(p, 'w')` followed by a write: create or truncate. -/
def Fs.set (fs : Fs) (p : Path) (c : FileContent) : Fs :=
  (p, c) :: fs.filter (fun e => e.1 != p)

/-- `os.remove(p)`. -/
def Fs.remove (fs : Fs) (p : Path) : Fs :=
  fs.filter (fun e => e.1 != p)

/-- Signals the model distinguishes; the source only ever names
`signal.SIGTERM` and `os.kill(..., signal.SIGTERM)`. -/
inductive Sig where
  | sigterm
  | sigint
  | sighup
  | sigkill
deriving DecidableEq, Repr

/-- The three standard descriptor slots. -/
inductive Fd where
  | fdIn
  | fdOut
  | fdErr
deriving DecidableEq, Repr

/-- `open` modes used by the source: `'rb'` with buffering 0 and
`'ab'` with buffering 0. -/
inductive Mode where
  | readBinUnbuf
  | appendBinUnbuf
deriving DecidableEq, Repr

/-- Externally visible events, in program order. -/
inductive Event where
  | fork (n : Nat)
  | chdirRoot
  | umask0
  | setsid
  | flush (fd : Fd)
  | setUtf8 (fd : Fd)
  | openSink (p : Path) (m : Mode)
  | dup2 (dst : Fd)
  | writeRecord (p : Path) (c : FileContent)
  | registerCleanup (p : Path)
  | installHandler (s : Sig)
  | callAction
  | callBeforeStop
  | kill (pid : Int) (s : Sig)
  | msgStderr (m : String)
  | poll
deriving DecidableEq, Repr

/-- How a call ends: normal return, `SystemExit(code)`, a
`RuntimeError(msg)`, an unhandled `OSError`, an unhandled
`ValueError` from `int()`, or the poll loop never terminating. -/
inductive Outcome where
  | ok
  | systemExit (code : Nat)
  | runtimeError (msg : String)
  | osError
  | valueError
  | hang
deriving DecidableEq, Repr

/-- Result of one call: outcome, event trace, final filesystem. -/
structure Res where
  outcome : Outcome
  trace : List Event
  fs : Fs
deriving DecidableEq, Repr

/-- Constructor-time configuration of `Daemon.__init__`: the pid file
path and the three stream sink paths (defaults `/dev/null`). -/
structure Config where
  pidfile : Path
  stdin : Path := "/dev/null"
  stdout : Path := "/dev/null"
  stderr : Path := "/dev/null"
deriving DecidableEq, Repr

/-- OS nondeterminism observed by `daemonize`/`start`: each `os.fork`
either fails (`none`, i.e. `OSError`) or returns a value (`0` in the
child, positive in the parent); whether `sys.stdout.encoding` /
`sys.stderr.encoding` is already UTF-8; whether each of the three
sink `open`s succeeds; the grandchild pid returned by `os.getpid`. -/
structure DEnv where
  fork1 : Option Nat
  fork2 : Option Nat
  stdoutUtf8 : Bool
  stderrUtf8 : Bool
  openStdinOk : Bool
  openStdoutOk : Bool
  openStderrOk : Bool
  pid : Nat
deriving DecidableEq, Repr

/-- OS nondeterminism observed by `stop`: whether `os.kill` succeeds
(the target exists), and after how many polls of `os.path.exists` the
pid file is found removed by the target (`none`: never removed). -/
structure SEnv where
  killOk : Bool
  removal : Option Nat
deriving DecidableEq, Repr

/-- Decimal digit character, `0 ≤ d ≤ 9` expected. -/
def digitChar (d : Nat) : Char :=
  Char.ofNat (48 + d)

/-- Digit-extraction loop for `decRepr`, structural on a fuel bound
so that it evaluates by kernel reduction. -/
def decReprAux : Nat → Nat → List Char → List Char
  | 0, _, acc => acc
  | fuel + 1, n, acc =>
    if n < 10 then digitChar n :: acc
    else decReprAux fuel (n / 10) (digitChar (n % 10) :: acc)

/-- Decimal representation of a natural number, most significant
digit first: the text `"{}".format(os.getpid())` writes. -/
def decRepr (n : Nat) : List Char :=
  decReprAux (n + 1) n []

/-- Value of a digit string read left to right. -/
def digitsVal (l : List Char) : Nat :=
  l.foldl (fun a c => a * 10 + (c.toNat - 48)) 0

/-- The codepoints CPython `int()` strips as surrounding whitespace
(determined by probing every codepoint on CPython 3.11): 9-13, space,
NEL, NBSP, and the Unicode space separators. -/
def pyWhitespace (c : Char) : Bool :=
  decide ((9 ≤ c.toNat ∧ c.toNat ≤ 13) ∨ c.toNat = 32 ∨ c.toNat = 133 ∨
    c.toNat = 160 ∨ c.toNat = 5760 ∨ (8192 ≤ c.toNat ∧ c.toNat ≤ 8202) ∨
    c.toNat = 8232 ∨ c.toNat = 8233 ∨ c.toNat = 8239 ∨ c.toNat = 8287 ∨
    c.toNat = 12288)

/-- Start codepoints of the 66 runs of ten consecutive Unicode decimal
digits (category Nd) accepted by CPython `int()`, each run carrying
the values 0..9 in order (determined by probing every codepoint on
CPython 3.11). The first run is ASCII `'0'`..`'9'`. -/
def ndRangeStarts : List Nat :=
  [48, 1632, 1776, 1984, 2406, 2534, 2662, 2790, 2918, 3046, 3174, 3302,
   3430, 3558, 3664, 3792, 3872, 4160, 4240, 6112, 6160, 6470, 6608, 6784,
   6800, 6992, 7088, 7232, 7248, 42528, 43216, 43264, 43472, 43504, 43600,
   44016, 65296, 66720, 68912, 69734, 69872, 69942, 70096, 70384, 70736,
   70864, 71248, 71360, 71472, 71904, 72016, 72784, 73040, 73120, 92768,
   92864, 93008, 120782, 120792, 120802, 120812, 120822, 123200, 123632,
   125264, 130032]

/-- Decimal value a character denotes under `int()`: its offset
within the Nd run containing it, if any. -/
def pyDigitVal (c : Char) : Option Nat :=
  (ndRangeStarts.find? (fun s => s ≤ c.toNat && c.toNat ≤ s + 9)).map
    (fun s => c.toNat - s)

/-- ASCII decimal digit, the alphabet `decRepr` writes with. -/
def isAsciiDigit (c : Char) : Bool :=
  decide (48 ≤ c.toNat ∧ c.toNat ≤ 57)

/-- Strip leading and trailing whitespace, as Python `int(s)` does
before parsing. -/
def stripPyWs (l : List Char) : List Char :=
  ((l.dropWhile pyWhitespace).reverse.dropWhile pyWhitespace).reverse

/-- Digit run with PEP 515 underscore grouping, continuing after an
initial digit already accumulated in `acc`: an underscore is only
allowed between two digits, so here each underscore must be followed
directly by a digit, and a trailing underscore is an error. -/
def digitsUndAux : Nat → List Char → Option Nat
  | acc, [] => some acc
  | acc, c :: rest =>
    if c = '_' then
      match rest with
      | c2 :: rest2 =>
        match pyDigitVal c2 with
        | some d => digitsUndAux (acc * 10 + d) rest2
        | none => none
      | [] => none
    else
      match pyDigitVal c with
      | some d => digitsUndAux (acc * 10 + d) rest
      | none => none

/-- A nonempty digit body with underscore grouping; it must begin
with a digit (a leading underscore is invalid). -/
def parseDigitsPy : List Char → Option Nat
  | [] => none
  | c :: rest =>
    match pyDigitVal c with
    | some d => digitsUndAux d rest
    | none => none

/-- Python `int(s)` on text in base 10: strip surrounding whitespace,
optional sign, then a nonempty run of Unicode decimal digits with
PEP 515 underscore grouping; anything else raises `ValueError`. -/
def parseIntChars (l : List Char) : Option Int :=
  match stripPyWs l with
  | [] => none
  | '-' :: rest => (parseDigitsPy rest).map (fun n => -(n : Int))
  | '+' :: rest => (parseDigitsPy rest).map (fun n => (n : Int))
  | l' => (parseDigitsPy l').map (fun n => (n : Int))

/-- `Daemon.daemonize`, lines 36-89 of `daemon.py`. -/
def daemonize (cfg : Config) (env : DEnv) (fs : Fs) : Res :=
  if Fs.hasFile fs cfg.pidfile then
    ⟨.runtimeError "Daemon already running.", [], fs⟩
  else
    match env.fork1 with
    | none => ⟨.runtimeError "Fork #1 failed.", [.fork 1], fs⟩
    | some r1 =>
      if r1 > 0 then ⟨.systemExit 0, [.fork 1], fs⟩
      else
        let t1 : List Event := [.fork 1, .chdirRoot, .umask0, .setsid]
        match env.fork2 with
        | none => ⟨.runtimeError "Fork #2 failed.", t1 ++ [.fork 2], fs⟩
        | some r2 =>
          if r2 > 0 then ⟨.systemExit 0, t1 ++ [.fork 2], fs⟩
          else
            let t2 := t1 ++ [.fork 2, .flush .fdOut, .flush .fdErr]
              ++ (if env.stdoutUtf8 then [] else [.setUtf8 .fdOut])
              ++ (if env.stderrUtf8 then [] else [.setUtf8 .fdErr])
            if !env.openStdinOk then
              ⟨.osError, t2 ++ [.openSink cfg.stdin .readBinUnbuf], fs⟩
            else
              let t3 := t2 ++ [.openSink cfg.stdin .readBinUnbuf, .dup2 .fdIn]
              if !env.openStdoutOk then
                ⟨.osError, t3 ++ [.openSink cfg.stdout .appendBinUnbuf], fs⟩
              else
                let t4 := t3 ++ [.openSink cfg.stdout .appendBinUnbuf, .dup2 .fdOut]
                if !env.openStderrOk then
                  ⟨.osError, t4 ++ [.openSink cfg.stderr .appendBinUnbuf], fs⟩
                else
                  let t5 := t4 ++ [.openSink cfg.stderr .appendBinUnbuf, .dup2 .fdErr]
                  let content := decRepr env.pid ++ ['\n']
                  ⟨.ok,
                   t5 ++ [.writeRecord cfg.pidfile content,
                          .registerCleanup cfg.pidfile,
                          .installHandler .sigterm],
                   Fs.set fs cfg.pidfile content⟩

/-- `Daemon.start`, lines 91-99: `daemonize` then the action (with or
without keyword arguments, either way a single invocation). -/
def start (cfg : Config) (env : DEnv) (fs : Fs) : Res :=
  let d := daemonize cfg env fs
  match d.outcome with
  | .ok => ⟨.ok, d.trace ++ [.callAction], d.fs⟩
  | o => ⟨o, d.trace, d.fs⟩

/-- `Daemon.stop`, lines 106-117. -/
def stop (cfg : Config) (env : SEnv) (fs : Fs) : Res :=
  match Fs.lookup fs cfg.pidfile with
  | some content =>
    match parseIntChars content with
    | none => ⟨.valueError, [], fs⟩
    | some pid =>
      if !env.killOk then ⟨.osError, [.kill pid .sigterm], fs⟩
      else
        match env.removal with
        | none => ⟨.hang, [.kill pid .sigterm], fs⟩
        | some n =>
          ⟨.ok, .kill pid .sigterm :: (List.replicate n .poll ++ [.poll]),
           Fs.remove fs cfg.pidfile⟩
  | none => ⟨.systemExit 0, [.msgStderr "Daemon is not running."], fs⟩

/-- `Daemon.restart`, lines 101-104: `self.stop()` then
`self.start()`; an exception from `stop` propagates and `start` is
not reached. -/
def restart (cfg : Config) (senv : SEnv) (denv : DEnv) (fs : Fs) : Res :=
  let r := stop cfg senv fs
  match r.outcome with
  | .ok =>
    let r2 := start cfg denv r.fs
    ⟨r2.outcome, r.trace ++ r2.trace, r2.fs⟩
  | o => ⟨o, r.trace, r.fs⟩

/-- Sequencing of two operations as the spec describes `restart`: the
second runs exactly when the first returned normally, any abnormal
outcome of the first propagates unchanged. -/
def seqRes (r : Res) (k : Fs → Res) : Res :=
  match r.outcome with
  | .ok =>
    let r2 := k r.fs
    ⟨r2.outcome, r.trace ++ r2.trace, r2.fs⟩
  | o => ⟨o, r.trace, r.fs⟩

/-- The spec-side description of `restart`: a `stop` whose completion
is immediately followed by an independent `start`. -/
def stopThenStart (cfg : Config) (senv : SEnv) (denv : DEnv) (fs : Fs) : Res :=
  seqRes (stop cfg senv fs) (start cfg denv)

/-- The cleanup `atexit.register(lambda: os.remove(self.pidfile))`
arranges to run on normal process termination (line 83). -/
def atexitCleanup (cfg : Config) (fs : Fs) : Fs :=
  Fs.remove fs cfg.pidfile

/-- `Daemon.before_stop`, lines 120-122: the default hook is a no-op
producing no events; an override contributes its own events. -/
def beforeStopDefault : List Event := []

/-- The SIGTERM handler installed at line 89 together with the
process termination it causes: call `self.before_stop()` (whose
events are `hook`; `[]` for the default no-op), raise
`SystemExit(1)`, and let termination run the registered cleanup. -/
def onSigterm (cfg : Config) (hook : List Event) (fs : Fs) : Res :=
  ⟨.systemExit 1, .callBeforeStop :: hook, atexitCleanup cfg fs⟩

/-- Events the claims call "downstream" of the forks: stream
rebinding, record write and cleanup registration, handler
installation, the action. -/
def isDownstream : Event → Bool
  | .openSink _ _ => true
  | .dup2 _ => true
  | .writeRecord _ _ => true
  | .registerCleanup _ => true
  | .installHandler _ => true
  | .callAction => true
  | _ => false

/-- Index of the first event satisfying `p`, if any. -/
def firstIdx (p : Event → Bool) : List Event → Option Nat
  | [] => none
  | e :: t => if p e then some 0 else (firstIdx p t).map (· + 1)

/-- First index of an event satisfying `p` is strictly before the
first index of one satisfying `q`, both being present. -/
def precedes (p q : Event → Bool) (t : List Event) : Bool :=
  match firstIdx p t, firstIdx q t with
  | some i, some j => decide (i < j)
  | _, _ => false

def isForkEv : Event → Bool
  | .fork _ => true
  | _ => false

def isOpenEv : Event → Bool
  | .openSink _ _ => true
  | _ => false

def isWriteRecordEv : Event → Bool
  | .writeRecord _ _ => true
  | _ => false

def isRegisterEv : Event → Bool
  | .registerCleanup _ => true
  | _ => false

def isHandlerEv : Event → Bool
  | .installHandler _ => true
  | _ => false

def isActionEv : Event → Bool
  | .callAction => true
  | _ => false

/-- `true` unless the event installs a handler for a signal other
than SIGTERM. -/
def sigtermOnlyEv : Event → Bool
  | .installHandler .sigterm => true
  | .installHandler _ => false
  | _ => true

/-- The full event trace of a `daemonize` call on which every OS step
succeeds with the caller ending up as the grandchild. -/
def happyTrace (cfg : Config) (env : DEnv) : List Event :=
  [.fork 1, .chdirRoot, .umask0, .setsid, .fork 2, .flush .fdOut, .flush .fdErr]
    ++ (if env.stdoutUtf8 then [] else [.setUtf8 .fdOut])
    ++ ((if env.stderrUtf8 then [] else [.setUtf8 .fdErr])
    ++ [.openSink cfg.stdin .readBinUnbuf, .dup2 .fdIn,
        .openSink cfg.stdout .appendBinUnbuf, .dup2 .fdOut,
        .openSink cfg.stderr .appendBinUnbuf, .dup2 .fdErr,
        .writeRecord cfg.pidfile (decRepr env.pid ++ ['\n']),
        .registerCleanup cfg.pidfile, .installHandler .sigterm])

/-! ## Concrete fixtures used by witnesses -/

/-- The spec's concrete scenario configuration. -/
def cfgT : Config :=
  { pidfile := "/tmp/test.pid", stdin := "/dev/null",
    stdout := "/tmp/test.log", stderr := "/dev/null" }

/-- Environment where both forks put the caller in the child and all
opens succeed. -/
def denvOk : DEnv :=
  { fork1 := some 0, fork2 := some 0, stdoutUtf8 := true, stderrUtf8 := true,
    openStdinOk := true, openStdoutOk := true, openStderrOk := true, pid := 42 }

/-- Environment where the first fork identifies the caller as the
parent. -/
def denvParent1 : DEnv := { denvOk with fork1 := some 8 }

/-- Environment where the first fork fails with `OSError`. -/
def denvFail1 : DEnv := { denvOk with fork1 := none }

/-- A filesystem already holding an identity record at the test
path. -/
def fsT : Fs := [("/tmp/test.pid", ['4', '2', '\n'])]

/-- A filesystem holding a malformed identity record at the test
path. -/
def fsBad : Fs := [("/tmp/test.pid", ['a', 'b', 'c'])]

/-- Environment where the input sink cannot be opened. -/
def denvNoStdin : DEnv := { denvOk with openStdinOk := false }

/-! ## Helper lemmas on the filesystem model -/

theorem Fs.lookup_set (fs : Fs) (p : Path) (c : FileContent) :
    Fs.lookup (Fs.set fs p c) p = some c := by
  simp [Fs.set, Fs.lookup, List.lookup]

theorem Fs.lookup_remove (fs : Fs) (p : Path) :
    Fs.lookup (Fs.remove fs p) p = none := by
  induction fs with
  | nil => rfl
  | cons e t ih =>
    simp only [Fs.remove, Fs.lookup] at ih ⊢
    by_cases h : e.1 = p
    · have hb : (e.1 != p) = false := by simpa using h
      simpa [List.filter_cons, hb] using ih
    · have hb : (e.1 != p) = true := by simpa using h
      have hp : (p == e.1) = false := by simpa using Ne.symm h
      simpa [List.filter_cons, hb, List.lookup, hp] using ih

/-! ## Helper lemmas on decimal rendering and parsing -/

theorem digitChar_toNat {d : Nat} (h : d < 10) : (digitChar d).toNat = 48 + d := by
  interval_cases d <;> decide

theorem digitChar_asciiDigit {d : Nat} (h : d < 10) :
    isAsciiDigit (digitChar d) = true := by
  interval_cases d <;> decide

theorem decReprAux_acc (fuel n : Nat) (acc : List Char) :
    decReprAux fuel n acc = decReprAux fuel n [] ++ acc := by
  induction fuel generalizing n acc with
  | zero => simp [decReprAux]
  | succ f ih =>
    by_cases h : n < 10
    · simp [decReprAux, h]
    · simp only [decReprAux, if_neg h]
      rw [ih (n / 10) (digitChar (n % 10) :: acc), ih (n / 10) [digitChar (n % 10)]]
      simp

theorem decReprAux_fuel (fuel₁ fuel₂ n : Nat) (acc : List Char)
    (h1 : n < fuel₁) (h2 : n < fuel₂) :
    decReprAux fuel₁ n acc = decReprAux fuel₂ n acc := by
  induction fuel₁ generalizing fuel₂ n acc with
  | zero => omega
  | succ f₁ ih =>
    cases fuel₂ with
    | zero => omega
    | succ f₂ =>
      by_cases h : n < 10
      · simp [decReprAux, h]
      · have hlt : n / 10 < n := Nat.div_lt_self (by omega) (by omega)
        simp only [decReprAux, if_neg h]
        exact ih f₂ (n / 10) _ (by omega) (by omega)

theorem decRepr_lt {n : Nat} (h : n < 10) : decRepr n = [digitChar n] := by
  simp [decRepr, decReprAux, h]

theorem decRepr_ge {n : Nat} (h : ¬ n < 10) :
    decRepr n = decRepr (n / 10) ++ [digitChar (n % 10)] := by
  have hlt : n / 10 < n := Nat.div_lt_self (by omega) (by omega)
  show decReprAux (n + 1) n [] = _
  simp only [decReprAux, if_neg h]
  rw [decReprAux_acc n (n / 10) [digitChar (n % 10)],
    decReprAux_fuel n (n / 10 + 1) (n / 10) [] hlt (by omega)]
  rfl

theorem decRepr_ne_nil (n : Nat) : decRepr n ≠ [] := by
  by_cases h : n < 10
  · simp [decRepr_lt h]
  · simp [decRepr_ge h]

theorem decRepr_all_digit (n : Nat) : (decRepr n).all isAsciiDigit = true := by
  induction n using Nat.strongRecOn with
  | ind n ih =>
    by_cases h : n < 10
    · simpa [decRepr_lt h] using digitChar_asciiDigit h
    · have hlt : n / 10 < n := Nat.div_lt_self (by omega) (by omega)
      rw [decRepr_ge h]
      simp only [List.all_append, Bool.and_eq_true]
      exact ⟨ih _ hlt, by simpa using digitChar_asciiDigit (Nat.mod_lt n (by omega))⟩

theorem digitsVal_append_digit (l : List Char) (c : Char) :
    digitsVal (l ++ [c]) = digitsVal l * 10 + (c.toNat - 48) := by
  simp [digitsVal, List.foldl_append]

theorem digitsVal_decRepr (n : Nat) : digitsVal (decRepr n) = n := by
  induction n using Nat.strongRecOn with
  | ind n ih =>
    by_cases h : n < 10
    · rw [decRepr_lt h]
      simp [digitsVal, digitChar_toNat h]
    · have hlt : n / 10 < n := Nat.div_lt_self (by omega) (by omega)
      rw [decRepr_ge h, digitsVal_append_digit, ih _ hlt,
        digitChar_toNat (Nat.mod_lt n (by omega))]
      omega

theorem pyWhitespace_of_asciiDigit {c : Char} (h : isAsciiDigit c = true) :
    pyWhitespace c = false := by
  simp only [isAsciiDigit, decide_eq_true_eq] at h
  simp only [pyWhitespace, decide_eq_false_iff_not]
  omega

theorem ne_special_of_asciiDigit {c : Char} (h : isAsciiDigit c = true) :
    c ≠ '-' ∧ c ≠ '+' ∧ c ≠ '_' := by
  simp only [isAsciiDigit, decide_eq_true_eq] at h
  refine ⟨?_, ?_, ?_⟩ <;> (rintro rfl; revert h; decide)

theorem pyDigitVal_of_asciiDigit {c : Char} (h : isAsciiDigit c = true) :
    pyDigitVal c = some (c.toNat - 48) := by
  simp only [isAsciiDigit, decide_eq_true_eq] at h
  have hp : ((48 : Nat) ≤ c.toNat && c.toNat ≤ 48 + 9) = true := by
    simp only [Bool.and_eq_true, decide_eq_true_eq]
    omega
  unfold pyDigitVal
  rw [show ndRangeStarts = 48 :: ndRangeStarts.tail from rfl]
  simp only [List.find?]
  rw [hp]
  rfl

theorem dropWhile_pyWs_of_digits (l : List Char) (hd : l.all isAsciiDigit = true) :
    l.dropWhile pyWhitespace = l := by
  cases l with
  | nil => rfl
  | cons c t =>
    simp only [List.all_cons, Bool.and_eq_true] at hd
    simp [List.dropWhile_cons, pyWhitespace_of_asciiDigit hd.1]

theorem stripPyWs_digits_newline (l : List Char) (hne : l ≠ [])
    (hd : l.all isAsciiDigit = true) :
    stripPyWs (l ++ ['\n']) = l := by
  unfold stripPyWs
  cases l with
  | nil => exact absurd rfl hne
  | cons c t =>
    have hall := hd
    simp only [List.all_cons, Bool.and_eq_true] at hd
    rw [List.cons_append, List.dropWhile_cons]
    simp only [pyWhitespace_of_asciiDigit hd.1, Bool.false_eq_true, if_false]
    have h2 : (c :: (t ++ ['\n'])) = (c :: t) ++ ['\n'] := by simp
    rw [h2, List.reverse_append, List.reverse_singleton, List.singleton_append,
      List.dropWhile_cons]
    simp only [show pyWhitespace '\n' = true by decide, if_true]
    rw [dropWhile_pyWs_of_digits (c :: t).reverse (by rw [List.all_reverse]; exact hall),
      List.reverse_reverse]

theorem digitsUndAux_digits (l : List Char) :
    ∀ acc, l.all isAsciiDigit = true →
      digitsUndAux acc l = some (l.foldl (fun a c => a * 10 + (c.toNat - 48)) acc) := by
  induction l with
  | nil =>
    intro acc _
    simp [digitsUndAux]
  | cons c t ih =>
    intro acc hd
    simp only [List.all_cons, Bool.and_eq_true] at hd
    have hne := (ne_special_of_asciiDigit hd.1).2.2
    rw [digitsUndAux.eq_def]
    dsimp only
    rw [if_neg hne, pyDigitVal_of_asciiDigit hd.1]
    exact ih _ hd.2

theorem parseDigitsPy_digits (l : List Char) (hne : l ≠ [])
    (hd : l.all isAsciiDigit = true) :
    parseDigitsPy l = some (digitsVal l) := by
  cases l with
  | nil => exact absurd rfl hne
  | cons c t =>
    simp only [List.all_cons, Bool.and_eq_true] at hd
    simp only [parseDigitsPy, pyDigitVal_of_asciiDigit hd.1,
      digitsUndAux_digits t (c.toNat - 48) hd.2, digitsVal, List.foldl_cons,
      Nat.zero_mul, Nat.zero_add]

theorem parseIntChars_of_digits (l : List Char) (hne : l ≠ [])
    (hd : l.all isAsciiDigit = true) :
    parseIntChars (l ++ ['\n']) = some ((digitsVal l : Int)) := by
  unfold parseIntChars
  rw [stripPyWs_digits_newline l hne hd]
  cases l with
  | nil => exact absurd rfl hne
  | cons c t =>
    have hcd : isAsciiDigit c = true := by
      simp only [List.all_cons, Bool.and_eq_true] at hd
      exact hd.1
    obtain ⟨hm, hp, -⟩ := ne_special_of_asciiDigit hcd
    split
    · rename_i heq
      exact absurd heq (by simp)
    · rename_i rest heq
      exact absurd ((List.cons.injEq .. ▸ heq).1) hm
    · rename_i rest heq
      exact absurd ((List.cons.injEq .. ▸ heq).1) hp
    · rw [parseDigitsPy_digits (c :: t) (by simp) hd]
      rfl

theorem parseIntChars_decRepr (n : Nat) :
    parseIntChars (decRepr n ++ ['\n']) = some ((n : Int)) := by
  rw [parseIntChars_of_digits _ (decRepr_ne_nil n) (decRepr_all_digit n),
    digitsVal_decRepr]

/-- PEP 515 underscore grouping: the model parses `"1_2\n"` as 12,
as CPython `int()` does. -/
theorem parseIntChars_underscore_sample :
    parseIntChars ['1', '_', '2', '\n'] = some 12 := by
  decide

/-- Non-ASCII Unicode decimal digits: the model parses the
Arabic-Indic digits `"١٢"` as 12, as CPython `int()` does. -/
theorem parseIntChars_arabic_sample :
    parseIntChars ['١', '٢'] = some 12 := by
  decide

/-- Underscores are rejected everywhere except between two digits,
as CPython `int()` rejects `"_1"`, `"1_"` and `"1__2"`. -/
theorem parseIntChars_bad_underscore_sample :
    parseIntChars ['_', '1'] = none ∧ parseIntChars ['1', '_'] = none ∧
    parseIntChars ['1', '_', '_', '2'] = none := by
  decide

/-! ## Helper lemmas on the operations -/

theorem daemonize_happy (cfg : Config) (env : DEnv) (fs : Fs)
    (h0 : Fs.hasFile fs cfg.pidfile = false)
    (h1 : env.fork1 = some 0) (h2 : env.fork2 = some 0)
    (h3 : env.openStdinOk = true) (h4 : env.openStdoutOk = true)
    (h5 : env.openStderrOk = true) :
    daemonize cfg env fs =
      ⟨.ok, happyTrace cfg env,
       Fs.set fs cfg.pidfile (decRepr env.pid ++ ['\n'])⟩ := by
  obtain ⟨f1, f2, su, se, oi, oo, oe, pid⟩ := env
  simp only at h1 h2 h3 h4 h5
  subst h1 h2 h3 h4 h5
  cases su <;> cases se <;> simp [daemonize, happyTrace, h0]

theorem start_happy (cfg : Config) (env : DEnv) (fs : Fs)
    (h0 : Fs.hasFile fs cfg.pidfile = false)
    (h1 : env.fork1 = some 0) (h2 : env.fork2 = some 0)
    (h3 : env.openStdinOk = true) (h4 : env.openStdoutOk = true)
    (h5 : env.openStderrOk = true) :
    start cfg env fs =
      ⟨.ok, happyTrace cfg env ++ [.callAction],
       Fs.set fs cfg.pidfile (decRepr env.pid ++ ['\n'])⟩ := by
  rw [start, daemonize_happy cfg env fs h0 h1 h2 h3 h4 h5]

set_option maxHeartbeats 1000000 in
theorem daemonize_handlers_sigterm (cfg : Config) (env : DEnv) (fs : Fs) :
    (daemonize cfg env fs).trace.all sigtermOnlyEv = true := by
  obtain ⟨f1, f2, su, se, oi, oo, oe, pid⟩ := env
  cases hf : Fs.hasFile fs cfg.pidfile
  case true => simp [daemonize, hf]
  case false =>
  rcases f1 with _ | f1
  · simp [daemonize, hf, sigtermOnlyEv]
  rcases f1 with _ | r1
  swap
  · simp [daemonize, hf, sigtermOnlyEv]
  rcases f2 with _ | f2
  · simp [daemonize, hf, sigtermOnlyEv]
  rcases f2 with _ | r2
  swap
  · simp [daemonize, hf, sigtermOnlyEv]
  cases su <;> cases se <;> cases oi <;> cases oo <;> cases oe <;>
    simp [daemonize, hf, sigtermOnlyEv]

/-- `seqRes` propagates an abnormal first outcome unchanged. -/
theorem seqRes_not_ok (r : Res) (k : Fs → Res) (h : r.outcome ≠ .ok) :
    seqRes r k = r := by
  obtain ⟨o, t, f⟩ := r
  cases o <;> simp_all [seqRes]

/-- `seqRes` after a normal first outcome runs the continuation and
concatenates the traces. -/
theorem seqRes_ok (r : Res) (k : Fs → Res) (h : r.outcome = .ok) :
    seqRes r k = ⟨(k r.fs).outcome, r.trace ++ (k r.fs).trace, (k r.fs).fs⟩ := by
  obtain ⟨o, t, f⟩ := r
  simp only at h
  subst h
  simp [seqRes]

/-! ## The claims -/

/-- C1: for every configuration, calling `start()` while an identity
record already exists at the configured path raises the
"Daemon already running." `RuntimeError` with an empty event trace —
so no fork is attempted, no detachment is performed, the work
callback is never invoked — and the filesystem (in particular the
existing record) is returned unchanged. -/
theorem C1_start_already_running (cfg : Config) (env : DEnv) (fs : Fs)
    (h : Fs.hasFile fs cfg.pidfile = true) :
    start cfg env fs = ⟨.runtimeError "Daemon already running.", [], fs⟩ := by
  simp [start, daemonize, h]

theorem C1_start_already_running_witness :
    start cfgT denvOk fsT = ⟨.runtimeError "Daemon already running.", [], fsT⟩ :=
  C1_start_already_running cfgT denvOk fsT (by decide)

/-- C6: when `stop()` finds no identity record at the configured
path, it prints an informational message to the error stream, raises
`SystemExit(0)` (success), leaves the filesystem unchanged, and its
trace contains no `kill` event, i.e. no signal is sent to any
process. -/
theorem C6_stop_not_running (cfg : Config) (env : SEnv) (fs : Fs)
    (h : Fs.lookup fs cfg.pidfile = none) :
    stop cfg env fs = ⟨.systemExit 0, [.msgStderr "Daemon is not running."], fs⟩
    ∧ ∀ p s, Event.kill p s ∉ (stop cfg env fs).trace := by
  refine ⟨by simp [stop, h], ?_⟩
  intro p s
  simp [stop, h]

theorem C6_stop_not_running_witness :
    stop cfgT ⟨true, none⟩ [] =
      ⟨.systemExit 0, [.msgStderr "Daemon is not running."], []⟩ :=
  (C6_stop_not_running cfgT ⟨true, none⟩ [] rfl).1

/-- C10: when the identity record exists but its content does not
parse as a decimal integer, `stop()` raises the `ValueError` from
`int()` with an empty trace — before any signal is delivered and
before any polling — and the filesystem, in particular the record
file, is unchanged. -/
theorem C10_stop_malformed_record (cfg : Config) (env : SEnv) (fs : Fs)
    (content : FileContent)
    (hf : Fs.lookup fs cfg.pidfile = some content)
    (hp : parseIntChars content = none) :
    stop cfg env fs = ⟨.valueError, [], fs⟩ := by
  simp [stop, hf, hp]

theorem C10_stop_malformed_record_witness :
    stop cfgT ⟨true, some 0⟩ fsBad = ⟨.valueError, [], fsBad⟩ :=
  C10_stop_malformed_record cfgT ⟨true, some 0⟩ fsBad ['a', 'b', 'c']
    (by decide) (by decide)

/-- C9: `restart()` is observably equivalent to a `stop()` whose
normal completion is immediately followed by an independent
`start()`: it equals the generic exception-propagating sequencing of
the two; any abnormal outcome of `stop()` (including its
`SystemExit(0)` when no record exists) propagates unchanged with
`start()` not reached, and when `stop()` returns normally the trace
and outcome are exactly those of `stop()` followed by `start()`. -/
theorem C9_restart_equiv (cfg : Config) (senv : SEnv) (denv : DEnv) (fs : Fs) :
    restart cfg senv denv fs = stopThenStart cfg senv denv fs
    ∧ ((stop cfg senv fs).outcome ≠ .ok →
        restart cfg senv denv fs = stop cfg senv fs)
    ∧ ((stop cfg senv fs).outcome = .ok →
        (restart cfg senv denv fs).outcome =
            (start cfg denv (stop cfg senv fs).fs).outcome
        ∧ (restart cfg senv denv fs).trace =
            (stop cfg senv fs).trace ++ (start cfg denv (stop cfg senv fs).fs).trace) := by
  have hse : restart cfg senv denv fs = seqRes (stop cfg senv fs) (start cfg denv) := rfl
  refine ⟨rfl, ?_, ?_⟩
  · intro h
    rw [hse, seqRes_not_ok _ _ h]
  · intro h
    rw [hse, seqRes_ok _ _ h]
    exact ⟨rfl, rfl⟩

theorem C9_restart_equiv_witness :
    restart cfgT ⟨true, some 0⟩ denvOk fsT = stopThenStart cfgT ⟨true, some 0⟩ denvOk fsT :=
  (C9_restart_equiv cfgT ⟨true, some 0⟩ denvOk fsT).1

/-- C2: with no record present, `daemonize` performs the detachment
steps in order: first fork, the parent terminating at once with
`SystemExit(0)`; in the child, `chdir('/')`, `umask(0)`, `setsid()`;
then a second fork, the intermediate parent terminating at once with
`SystemExit(0)`. Either fork failing raises the corresponding fatal
`RuntimeError`, the trace shows just one attempt of each fork (no
retry) and contains nothing downstream (no stream rebinding, record
write, handler installation, or callback); in the surviving grandchild
the trace begins with exactly this five-step sequence and no further
fork occurs. -/
theorem C2_detachment_sequence (cfg : Config) (env : DEnv) (fs : Fs)
    (h0 : Fs.hasFile fs cfg.pidfile = false) :
    (env.fork1 = none →
        daemonize cfg env fs = ⟨.runtimeError "Fork #1 failed.", [.fork 1], fs⟩
        ∧ (start cfg env fs).trace.all (fun e => !(isDownstream e)) = true)
    ∧ (∀ r, env.fork1 = some (r + 1) →
        daemonize cfg env fs = ⟨.systemExit 0, [.fork 1], fs⟩)
    ∧ (env.fork1 = some 0 → env.fork2 = none →
        daemonize cfg env fs =
          ⟨.runtimeError "Fork #2 failed.",
           [.fork 1, .chdirRoot, .umask0, .setsid, .fork 2], fs⟩
        ∧ (start cfg env fs).trace.all (fun e => !(isDownstream e)) = true)
    ∧ (env.fork1 = some 0 → ∀ r, env.fork2 = some (r + 1) →
        daemonize cfg env fs =
          ⟨.systemExit 0, [.fork 1, .chdirRoot, .umask0, .setsid, .fork 2], fs⟩)
    ∧ (env.fork1 = some 0 → env.fork2 = some 0 →
        ∃ rest, (daemonize cfg env fs).trace =
            [.fork 1, .chdirRoot, .umask0, .setsid, .fork 2] ++ rest
          ∧ rest.all (fun e => !(isForkEv e)) = true) := by
  refine ⟨?_, ?_, ?_, ?_, ?_⟩
  · intro h1
    have hd : daemonize cfg env fs = ⟨.runtimeError "Fork #1 failed.", [.fork 1], fs⟩ := by
      simp [daemonize, h0, h1]
    exact ⟨hd, by simp [start, hd, isDownstream]⟩
  · intro r h1
    simp [daemonize, h0, h1]
  · intro h1 h2
    have hd : daemonize cfg env fs =
        ⟨.runtimeError "Fork #2 failed.",
         [.fork 1, .chdirRoot, .umask0, .setsid, .fork 2], fs⟩ := by
      simp [daemonize, h0, h1, h2]
    exact ⟨hd, by simp [start, hd, isDownstream]⟩
  · intro h1 r h2
    simp [daemonize, h0, h1, h2]
  · intro h1 h2
    obtain ⟨f1, f2, su, se, oi, oo, oe, pid⟩ := env
    simp only at h1 h2
    subst h1 h2
    cases su <;> cases se <;> cases oi <;> cases oo <;> cases oe <;>
      simp [daemonize, h0, isForkEv]

theorem C2_detachment_sequence_witness :
    daemonize cfgT denvParent1 [] = ⟨.systemExit 0, [.fork 1], []⟩ :=
  (C2_detachment_sequence cfgT denvParent1 [] rfl).2.1 7 rfl

/-- C3: when `stop()` finds a record whose content parses as `pid`
and signal delivery succeeds, its trace starts with exactly one
`kill pid SIGTERM` event and everything after it is a poll of
`os.path.exists` — no backoff, nothing else between polls; if the
record is never removed the call never returns (outcome `hang`, a
lone kill in the trace, filesystem untouched); and whenever the call
does return normally, the record file no longer exists. -/
theorem C3_stop_blocks_until_removed (cfg : Config) (env : SEnv) (fs : Fs)
    (content : FileContent) (pid : Int)
    (hf : Fs.lookup fs cfg.pidfile = some content)
    (hp : parseIntChars content = some pid)
    (hk : env.killOk = true) :
    (stop cfg env fs).trace.head? = some (.kill pid .sigterm)
    ∧ (∀ e ∈ (stop cfg env fs).trace.tail, e = .poll)
    ∧ (env.removal = none → stop cfg env fs = ⟨.hang, [.kill pid .sigterm], fs⟩)
    ∧ ((stop cfg env fs).outcome = .ok →
        Fs.lookup (stop cfg env fs).fs cfg.pidfile = none) := by
  obtain ⟨killOk, removal⟩ := env
  simp only at hk
  subst hk
  rcases removal with _ | n
  · refine ⟨by simp [stop, hf, hp], ?_, fun _ => by simp [stop, hf, hp], ?_⟩
    · intro e he
      simp [stop, hf, hp] at he
    · intro h
      simp [stop, hf, hp] at h
  · refine ⟨by simp [stop, hf, hp], ?_, ?_, ?_⟩
    · intro e he
      simp [stop, hf, hp, List.mem_replicate] at he
      tauto
    · intro h
      simp at h
    · intro h
      simp [stop, hf, hp, Fs.lookup_remove]

theorem C3_stop_blocks_until_removed_witness :
    (stop cfgT ⟨true, some 1⟩ fsT).trace.head? = some (.kill 42 .sigterm) :=
  (C3_stop_blocks_until_removed cfgT ⟨true, some 1⟩ fsT ['4', '2', '\n'] 42
    (by decide) (by decide) rfl).1

/-- C4: a successful `start()` (record absent, both forks put the
caller in the grandchild, all sinks open) returns normally, leaves at
the configured path exactly the grandchild pid as decimal text
followed by a single newline, and the `stop()` parser reads that
content back as precisely that pid. -/
theorem C4_record_format (cfg : Config) (env : DEnv) (fs : Fs)
    (h0 : Fs.hasFile fs cfg.pidfile = false)
    (h1 : env.fork1 = some 0) (h2 : env.fork2 = some 0)
    (h3 : env.openStdinOk = true) (h4 : env.openStdoutOk = true)
    (h5 : env.openStderrOk = true) :
    (start cfg env fs).outcome = .ok
    ∧ Fs.lookup (start cfg env fs).fs cfg.pidfile = some (decRepr env.pid ++ ['\n'])
    ∧ parseIntChars (decRepr env.pid ++ ['\n']) = some ((env.pid : Int)) := by
  rw [start_happy cfg env fs h0 h1 h2 h3 h4 h5]
  exact ⟨rfl, Fs.lookup_set fs cfg.pidfile _, parseIntChars_decRepr env.pid⟩

theorem C4_record_format_witness :
    (start cfgT denvOk []).outcome = .ok :=
  (C4_record_format cfgT denvOk [] rfl rfl rfl rfl rfl rfl).1

/-- C5: every handler `daemonize` ever installs, on any path through
it, is for SIGTERM and no other signal; the handler invokes the
pre-shutdown hook (`before_stop`, by default a no-op contributing no
events) first and then terminates the process with `SystemExit(1)`;
and that termination runs the registered cleanup, after which no
identity record exists at the configured path. -/
theorem C5_signal_contract (cfg : Config) (env : DEnv) (fs : Fs) (hook : List Event) :
    (daemonize cfg env fs).trace.all sigtermOnlyEv = true
    ∧ onSigterm cfg beforeStopDefault fs =
        ⟨.systemExit 1, [.callBeforeStop], atexitCleanup cfg fs⟩
    ∧ (onSigterm cfg hook fs).trace.head? = some .callBeforeStop
    ∧ (onSigterm cfg hook fs).outcome = .systemExit 1
    ∧ Fs.lookup (onSigterm cfg hook fs).fs cfg.pidfile = none :=
  ⟨daemonize_handlers_sigterm cfg env fs, rfl, rfl, rfl,
   Fs.lookup_remove fs cfg.pidfile⟩

/-- C7, counterexample: on a successful `start()` at the concrete
test configuration, the identity record write does *not* precede the
stream rebinding — the claimed order (record write, then rebinding,
then handler, then callback) is false on the code, whose rebinding
comes first. -/
theorem C7_counterexample :
    ¬ (precedes isWriteRecordEv isOpenEv (start cfgT denvOk []).trace = true
       ∧ precedes isOpenEv isHandlerEv (start cfgT denvOk []).trace = true
       ∧ precedes isHandlerEv isActionEv (start cfgT denvOk []).trace = true) := by
  decide

/-- C7, amended: within a successful `start()`, after detachment the
Stream Redirector rebinds the standard streams first, then the
Identity Guard writes the identity record and registers its
removal-on-exit, then the termination signal handler is installed,
and then the work callback runs. -/
theorem C7_amended_order (cfg : Config) (env : DEnv) (fs : Fs)
    (h0 : Fs.hasFile fs cfg.pidfile = false)
    (h1 : env.fork1 = some 0) (h2 : env.fork2 = some 0)
    (h3 : env.openStdinOk = true) (h4 : env.openStdoutOk = true)
    (h5 : env.openStderrOk = true) :
    (start cfg env fs).trace = happyTrace cfg env ++ [.callAction]
    ∧ precedes isOpenEv isWriteRecordEv (start cfg env fs).trace = true
    ∧ precedes isWriteRecordEv isRegisterEv (start cfg env fs).trace = true
    ∧ precedes isRegisterEv isHandlerEv (start cfg env fs).trace = true
    ∧ precedes isHandlerEv isActionEv (start cfg env fs).trace = true := by
  rw [start_happy cfg env fs h0 h1 h2 h3 h4 h5]
  obtain ⟨f1, f2, su, se, oi, oo, oe, pid⟩ := env
  refine ⟨rfl, ?_, ?_, ?_, ?_⟩ <;> (cases su <;> cases se <;> rfl)

theorem C7_amended_order_witness :
    precedes isOpenEv isWriteRecordEv (start cfgT denvOk []).trace = true :=
  (C7_amended_order cfgT denvOk [] rfl rfl rfl rfl rfl rfl).2.1

/-- C8: after detachment, the input sink is opened read-only
unbuffered and duplicated onto standard input, the output and error
sinks are opened append-mode unbuffered and duplicated onto standard
output and error; if any of the three opens fails the `OSError`
propagates out of `start()` unhandled, the trace ends at the failing
open, the work callback never runs, and the filesystem is unchanged;
when all three succeed the trace contains the six open/dup2 events
in role order and the callback does run afterwards. -/
theorem C8_stream_rebinding (cfg : Config) (env : DEnv) (fs : Fs)
    (h0 : Fs.hasFile fs cfg.pidfile = false)
    (h1 : env.fork1 = some 0) (h2 : env.fork2 = some 0) :
    (env.openStdinOk = false →
        (start cfg env fs).outcome = .osError
        ∧ (start cfg env fs).trace.getLast? = some (.openSink cfg.stdin .readBinUnbuf)
        ∧ .callAction ∉ (start cfg env fs).trace
        ∧ (start cfg env fs).fs = fs)
    ∧ (env.openStdinOk = true → env.openStdoutOk = false →
        (start cfg env fs).outcome = .osError
        ∧ (start cfg env fs).trace.getLast? = some (.openSink cfg.stdout .appendBinUnbuf)
        ∧ .callAction ∉ (start cfg env fs).trace
        ∧ (start cfg env fs).fs = fs)
    ∧ (env.openStdinOk = true → env.openStdoutOk = true → env.openStderrOk = false →
        (start cfg env fs).outcome = .osError
        ∧ (start cfg env fs).trace.getLast? = some (.openSink cfg.stderr .appendBinUnbuf)
        ∧ .callAction ∉ (start cfg env fs).trace
        ∧ (start cfg env fs).fs = fs)
    ∧ (env.openStdinOk = true → env.openStdoutOk = true → env.openStderrOk = true →
        ∃ pre post, (start cfg env fs).trace =
            pre ++ [.openSink cfg.stdin .readBinUnbuf, .dup2 .fdIn,
                    .openSink cfg.stdout .appendBinUnbuf, .dup2 .fdOut,
                    .openSink cfg.stderr .appendBinUnbuf, .dup2 .fdErr] ++ post
          ∧ .callAction ∈ post) := by
  obtain ⟨f1, f2, su, se, oi, oo, oe, pid⟩ := env
  simp only at h1 h2
  subst h1 h2
  refine ⟨?_, ?_, ?_, ?_⟩
  · intro hi
    simp only at hi
    subst hi
    cases su <;> cases se <;>
      exact ⟨by simp [start, daemonize, h0], by simp [start, daemonize, h0],
        by simp [start, daemonize, h0], by simp [start, daemonize, h0]⟩
  · intro hi ho
    simp only at hi ho
    subst hi ho
    cases su <;> cases se <;>
      exact ⟨by simp [start, daemonize, h0], by simp [start, daemonize, h0],
        by simp [start, daemonize, h0], by simp [start, daemonize, h0]⟩
  · intro hi ho he
    simp only at hi ho he
    subst hi ho he
    cases su <;> cases se <;>
      exact ⟨by simp [start, daemonize, h0], by simp [start, daemonize, h0],
        by simp [start, daemonize, h0], by simp [start, daemonize, h0]⟩
  · intro hi ho he
    simp only at hi ho he
    subst hi ho he
    rw [start_happy _ _ _ h0 rfl rfl rfl rfl rfl]
    refine ⟨[.fork 1, .chdirRoot, .umask0, .setsid, .fork 2, .flush .fdOut, .flush .fdErr]
        ++ (if su then ([] : List Event) else [.setUtf8 .fdOut])
        ++ (if se then ([] : List Event) else [.setUtf8 .fdErr]),
      [.writeRecord cfg.pidfile (decRepr pid ++ ['\n']),
       .registerCleanup cfg.pidfile, .installHandler .sigterm, .callAction],
      by simp [happyTrace], by simp⟩

theorem C8_stream_rebinding_witness :
    (start cfgT denvNoStdin []).outcome = .osError :=
  ((C8_stream_rebinding cfgT denvNoStdin [] rfl rfl rfl).1 rfl).1

end DaemonModel
